import Mathlib

/-!
A shallow embedding of the geometry resolution pipeline of `mosaic`
(src/main.rs): signed 16-bit rectangle arithmetic (the `euclid` crate
instantiated at `i16`), the placement-spec planner `compute_new_box` /
`compute_new_horiz` / `compute_new_vert`, the dock-subtraction fold from
`main`, the target resolver, desktop selection, the frame conversions
`outer_box` / `inner_box`, and the snapshot (`WindowGroup`) construction.

Machine integers (`i16`) are modelled as `Int` together with an explicit
two's-complement wrap `wrap16` applied at every arithmetic operation of the
source that can overflow; `div_euclid` is `Int.ediv`, which has no overflow
for the positive literal divisors used by the source.  Rust operations that
can panic (`BTreeMap` indexing, `Option::unwrap`) are modelled as `Option`
results, with `none` standing for the panic.
-/

set_option autoImplicit false

namespace Mosaic

/-- Two's-complement wrap of an integer into the `i16` range
`[-32768, 32767]`, the release-mode semantics of Rust `i16` arithmetic. -/
def wrap16 (n : Int) : Int :=
  (n + 32768) % 65536 - 32768

/-- An integer value representable as an `i16`. -/
def validI16 (n : Int) : Prop :=
  -32768 ≤ n ∧ n ≤ 32767

instance (n : Int) : Decidable (validI16 n) := by
  unfold validI16; infer_instance

/-- `euclid::Rect<i16>`: origin plus size, as stored in `Window::geom`. -/
structure Rect where
  x : Int
  y : Int
  w : Int
  h : Int
deriving DecidableEq

/-- `euclid::Box2D<i16>`: a rectangle given by its two corners. -/
structure Box2D where
  minX : Int
  minY : Int
  maxX : Int
  maxY : Int
deriving DecidableEq

/-- `euclid::SideOffsets2D<i16>`: the four frame insets, in CSS order. -/
structure SideOffsets2D where
  top : Int
  right : Int
  bottom : Int
  left : Int
deriving DecidableEq

/-- `Rect::to_box2d`: `min = origin`, `max = origin + size` (`i16` add wraps). -/
def Rect.toBox2d (r : Rect) : Box2D :=
  ⟨r.x, r.y, wrap16 (r.x + r.w), wrap16 (r.y + r.h)⟩

/-- `Rect::translate`: shift the origin by a vector. -/
def Rect.translateR (r : Rect) (v : Int × Int) : Rect :=
  ⟨wrap16 (r.x + v.1), wrap16 (r.y + v.2), r.w, r.h⟩

/-- `Box2D::to_rect`: `origin = min`, `size = max - min` (`i16` sub wraps). -/
def Box2D.toRect (b : Box2D) : Rect :=
  ⟨b.minX, b.minY, wrap16 (b.maxX - b.minX), wrap16 (b.maxY - b.minY)⟩

/-- `Box2D::width`: `max.x - min.x` on `i16`. -/
def Box2D.width (b : Box2D) : Int :=
  wrap16 (b.maxX - b.minX)

/-- `Box2D::height`: `max.y - min.y` on `i16`. -/
def Box2D.height (b : Box2D) : Int :=
  wrap16 (b.maxY - b.minY)

/-- `Box2D::translate`: shift both corners by a vector. -/
def Box2D.translateB (b : Box2D) (v : Int × Int) : Box2D :=
  ⟨wrap16 (b.minX + v.1), wrap16 (b.minY + v.2),
   wrap16 (b.maxX + v.1), wrap16 (b.maxY + v.2)⟩

/-- `Box2D::outer_box`: expand a box outward by frame insets (used at
`main.rs:495` to unframe the current window box). -/
def Box2D.outerBox (b : Box2D) (e : SideOffsets2D) : Box2D :=
  ⟨wrap16 (b.minX - e.left), wrap16 (b.minY - e.top),
   wrap16 (b.maxX + e.right), wrap16 (b.maxY + e.bottom)⟩

/-- `Box2D::inner_box`: shrink a box inward by frame insets (used at
`main.rs:583` to reframe the planned box). -/
def Box2D.innerBox (b : Box2D) (e : SideOffsets2D) : Box2D :=
  ⟨wrap16 (b.minX + e.left), wrap16 (b.minY + e.top),
   wrap16 (b.maxX - e.right), wrap16 (b.maxY - e.bottom)⟩

/-- `Box2D::is_empty`: a box is empty unless both spans are strictly
positive. -/
def Box2D.isEmptyP (b : Box2D) : Prop :=
  ¬(b.minX < b.maxX ∧ b.minY < b.maxY)

instance (b : Box2D) : Decidable b.isEmptyP := by
  unfold Box2D.isEmptyP; infer_instance

/-- `Box2D::intersection`: corner-wise max/min, `None` when the result is
empty. -/
def Box2D.intersection (a b : Box2D) : Option Box2D :=
  let r : Box2D := ⟨max a.minX b.minX, max a.minY b.minY,
                    min a.maxX b.maxX, min a.maxY b.maxY⟩
  if r.isEmptyP then none else some r

/-- `Box2D::contains`: half-open containment of a point. -/
def Box2D.containsPt (b : Box2D) (p : Int × Int) : Prop :=
  b.minX ≤ p.1 ∧ p.1 < b.maxX ∧ b.minY ≤ p.2 ∧ p.2 < b.maxY

instance (b : Box2D) (p : Int × Int) : Decidable (b.containsPt p) := by
  unfold Box2D.containsPt; infer_instance

/-- The `--horiz` placement spec (`HorizSpec` in main.rs). -/
inductive HorizSpec where
  | Current
  | Left
  | Left25
  | Left50
  | Left75
  | Right
  | Right25
  | Right50
  | Right75
  | Full
deriving DecidableEq

/-- The `--vert` placement spec (`VertSpec` in main.rs). -/
inductive VertSpec where
  | Current
  | Top
  | Bottom
  | Full
deriving DecidableEq

/-- The `Left25` arm of `compute_new_horiz`. -/
def horizLeft25 (avail : Box2D) : Int × Int :=
  (avail.minX, wrap16 (avail.minX + avail.width / 4))

/-- The `Left50` arm of `compute_new_horiz`. -/
def horizLeft50 (avail : Box2D) : Int × Int :=
  (avail.minX, wrap16 (avail.minX + avail.width / 2))

/-- The `Left75` arm of `compute_new_horiz` (`(width * 3)` wraps on `i16`). -/
def horizLeft75 (avail : Box2D) : Int × Int :=
  (avail.minX, wrap16 (avail.minX + wrap16 (avail.width * 3) / 4))

/-- The `Right25` arm of `compute_new_horiz`. -/
def horizRight25 (avail : Box2D) : Int × Int :=
  (wrap16 (avail.maxX - avail.width / 4), avail.maxX)

/-- The `Right50` arm of `compute_new_horiz`. -/
def horizRight50 (avail : Box2D) : Int × Int :=
  (wrap16 (avail.maxX - avail.width / 2), avail.maxX)

/-- The `Right75` arm of `compute_new_horiz`. -/
def horizRight75 (avail : Box2D) : Int × Int :=
  (wrap16 (avail.maxX - wrap16 (avail.width * 3) / 4), avail.maxX)

/-- `compute_new_horiz` (main.rs:688-730).  The cycling `Left`/`Right` arms
recompute the three fixed-fraction candidates of their side and compare the
current span against them, exactly as the recursive calls in the source do. -/
def compute_new_horiz (current avail : Box2D) : HorizSpec → Int × Int
  | .Current => (current.minX, current.maxX)
  | .Left25 => horizLeft25 avail
  | .Left50 => horizLeft50 avail
  | .Left75 => horizLeft75 avail
  | .Right25 => horizRight25 avail
  | .Right50 => horizRight50 avail
  | .Right75 => horizRight75 avail
  | .Full => (avail.minX, avail.maxX)
  | .Left =>
    let c25 := horizLeft25 avail
    let c50 := horizLeft50 avail
    let c75 := horizLeft75 avail
    if (current.minX, current.maxX) = c50 then c25
    else if (current.minX, current.maxX) = c25 then c75
    else c50
  | .Right =>
    let c25 := horizRight25 avail
    let c50 := horizRight50 avail
    let c75 := horizRight75 avail
    if (current.minX, current.maxX) = c50 then c25
    else if (current.minX, current.maxX) = c25 then c75
    else c50

/-- `compute_new_vert` (main.rs:732-741). -/
def compute_new_vert (current avail : Box2D) : VertSpec → Int × Int
  | .Current => (current.minY, current.maxY)
  | .Top => (avail.minY, wrap16 (avail.minY + avail.height / 2))
  | .Bottom => (wrap16 (avail.maxY - avail.height / 2), avail.maxY)
  | .Full => (avail.minY, avail.maxY)

/-- `compute_new_box` (main.rs:682-686). -/
def compute_new_box (current avail : Box2D) (hspec : HorizSpec)
    (vspec : VertSpec) : Box2D :=
  let hx := compute_new_horiz current avail hspec
  let vy := compute_new_vert current avail vspec
  ⟨hx.1, vy.1, hx.2, vy.2⟩

/-- The candidate remainder rectangles computed by the partial-intersection
branch of the dock-subtraction fold (main.rs:552-568), in the source's fixed
order: left of dock, right of dock, above dock, below dock. -/
def dockRegions (avail overlap : Box2D) : List Box2D :=
  (if avail.minX < overlap.minX then
    [⟨avail.minX, avail.minY, overlap.minX, avail.maxY⟩] else [])
  ++ (if avail.maxX > overlap.maxX then
    [⟨overlap.maxX, avail.minY, avail.maxX, avail.maxY⟩] else [])
  ++ (if avail.minY < overlap.minY then
    [⟨avail.minX, avail.minY, avail.maxX, overlap.minY⟩] else [])
  ++ (if avail.maxY > overlap.maxY then
    [⟨avail.minX, overlap.maxY, avail.maxX, avail.maxY⟩] else [])

/-- One step of the dock-subtraction fold (main.rs:526-576): intersect the
dock with the current available box; ignore the dock when disjoint or when it
covers the whole box; otherwise keep the last generated candidate.
`regions.pop().unwrap()` is modelled by `getLast?`, with `none` standing for
the panic of `unwrap` on an empty candidate list. -/
def dockStep (avail dock : Box2D) : Option Box2D :=
  match Box2D.intersection avail dock with
  | none => some avail
  | some overlap =>
    if overlap = avail then some avail
    else (dockRegions avail overlap).getLast?

/-- Modelled from the spec's words (for the refinement claim about the fold
step): one candidate per side on which the dock does not reach the available
rectangle's edge, in the order left, right, above, below, each cut at the
dock's corresponding edge. -/
def specDockCandidates (avail dock : Box2D) : List Box2D :=
  (if avail.minX < dock.minX then
    [⟨avail.minX, avail.minY, dock.minX, avail.maxY⟩] else [])
  ++ (if dock.maxX < avail.maxX then
    [⟨dock.maxX, avail.minY, avail.maxX, avail.maxY⟩] else [])
  ++ (if avail.minY < dock.minY then
    [⟨avail.minX, avail.minY, avail.maxX, dock.minY⟩] else [])
  ++ (if dock.maxY < avail.maxY then
    [⟨avail.minX, dock.maxY, avail.maxX, avail.maxY⟩] else [])

/-- Lookup in an association list, modelling `BTreeMap` access by key.  The
lists standing for `BTreeMap`/`BTreeSet` are kept in ascending key order, the
order their iterators produce. -/
def lookupMap {α : Type} (m : List (Nat × α)) (k : Nat) : Option α :=
  match m.find? (fun e => e.1 == k) with
  | some e => some e.2
  | none => none

/-- The point-in-time snapshot (`WindowGroup` in main.rs) together with the
root window id held by `Context`: per-window geometry, the desktop / dock /
selectable id sets, and the parent map.  Lists model the `BTreeMap` /
`BTreeSet` iteration order (ascending ids). -/
structure WindowGroup where
  windows : List (Nat × Rect)
  rootId : Nat
  desktop : List Nat
  dock : List Nat
  selectable : List Nat
  parents : List (Nat × Nat)
deriving DecidableEq

/-- The parent-chain walk of target resolution (main.rs:452-459), with fuel.
`some (some p)` means a selectable ancestor `p` was found, `some none` means
the loop exited at the root or id 0 without finding one, and `none` means the
walk panicked on a missing parent entry or ran out of fuel. -/
def walkUp (wg : WindowGroup) : Nat → Nat → Option (Option Nat)
  | 0, _ => none
  | fuel + 1, id =>
    if 0 < id ∧ id ≠ wg.rootId then
      match lookupMap wg.parents id with
      | none => none
      | some p =>
        if p ∈ wg.selectable then some (some p) else walkUp wg fuel p
    else some none

/-- The child scan of target resolution (main.rs:461-474): the first entry of
the parent map whose parent is the starting window and whose key is
selectable. -/
def firstSelectableChild (wg : WindowGroup) (orig : Nat) : Option Nat :=
  ((wg.parents.filter
    (fun e => e.2 == orig && wg.selectable.contains e.1)).head?).map (·.1)

/-- The first entry of the parent map whose parent is the starting window:
the starting window's first immediate child in snapshot order. -/
def firstChild (wg : WindowGroup) (orig : Nat) : Option Nat :=
  ((wg.parents.filter (fun e => e.2 == orig)).head?).map (·.1)

/-- Outcome of target resolution. -/
inductive ResolveResult where
  | found (id : Nat)
  | unresolvedT
  | panicked
deriving DecidableEq

/-- Target resolution (main.rs:431-481) from an already-obtained starting id:
the starting window itself if selectable, else the first selectable ancestor,
else the first selectable immediate child, else unresolved (`warn` + return). -/
def resolveTarget (wg : WindowGroup) (fuel : Nat) (start : Nat) :
    ResolveResult :=
  if start ∈ wg.selectable then .found start
  else
    match walkUp wg fuel start with
    | some (some p) => .found p
    | none => .panicked
    | some none =>
      match firstSelectableChild wg start with
      | some c => .found c
      | none => .unresolvedT

/-- The accumulator loop of `window_abs_xlate` (main.rs:341-349), with fuel:
sum the origins of all strict ancestors up to and including the root.  `none`
models a panic on a missing map entry or exhausted fuel. -/
def absXlateAux (wg : WindowGroup) : Nat → Nat → Int × Int → Option (Int × Int)
  | 0, _, _ => none
  | fuel + 1, id, acc =>
    if id = wg.rootId then some acc
    else
      match lookupMap wg.parents id with
      | none => none
      | some p =>
        match lookupMap wg.windows p with
        | none => none
        | some g => absXlateAux wg fuel p (wrap16 (acc.1 + g.x), wrap16 (acc.2 + g.y))

/-- `window_abs_xlate`: the vector from a window's parent-relative origin to
its absolute origin. -/
def window_abs_xlate (wg : WindowGroup) (fuel : Nat) (id : Nat) :
    Option (Int × Int) :=
  absXlateAux wg fuel id (0, 0)

/-- A window's absolute rectangle as a box, as computed for desktops
(main.rs:503-508) and docks (main.rs:528-532):
`window(id).geom.translate(window_abs_xlate(..)).to_box2d()`. -/
def windowAbsBox (wg : WindowGroup) (fuel : Nat) (id : Nat) : Option Box2D :=
  match lookupMap wg.windows id with
  | none => none
  | some g =>
    match window_abs_xlate wg fuel id with
    | none => none
    | some v => some ((g.translateR v).toBox2d)

/-- Desktop selection (main.rs:500-522): scan the candidate desktop ids in
order and return the box of the first one whose absolute rectangle contains
the point.  Outer `none` models a panic inside the iterator; `some none`
means no desktop matched. -/
def selectDesktopAux (wg : WindowGroup) (fuel : Nat) (p : Int × Int) :
    List Nat → Option (Option Box2D)
  | [] => some none
  | id :: rest =>
    match windowAbsBox wg fuel id with
    | none => none
    | some b =>
      if b.containsPt p then some (some b) else selectDesktopAux wg fuel p rest

/-- The dock-subtraction fold (main.rs:526-576) over a list of dock ids,
threading panics. -/
def dockFoldAux (wg : WindowGroup) (fuel : Nat) :
    List Nat → Box2D → Option Box2D
  | [], avail => some avail
  | id :: rest, avail =>
    match windowAbsBox wg fuel id with
    | none => none
    | some dockBox =>
      match dockStep avail dockBox with
      | none => none
      | some avail2 => dockFoldAux wg fuel rest avail2

/-- Outcome of one run of the placement pipeline.  `aborted` is the
`warn!(..); return Ok(())` path: a diagnostic is logged, no geometry command
is sent, and `main` still returns `Ok`.  `sent` carries the geometry of the
`_NET_MOVERESIZE_WINDOW` command.  `panicked` models a Rust panic. -/
inductive RunOutcome where
  | panicked
  | aborted
  | sent (geom : Rect)
deriving DecidableEq

/-- The process exit status for each outcome: `main` returns
`xcb::Result<()>`, so both success and the `warn` paths exit 0; a panic
aborts the process with a non-zero status (101). -/
def exitCode : RunOutcome → Nat
  | .panicked => 101
  | .aborted => 0
  | .sent _ => 0

/-- The geometry command sent to the server, if any. -/
def commandSent : RunOutcome → Option Rect
  | .sent g => some g
  | _ => none

/-- The pipeline from a resolved target id to the sent command
(main.rs:485-622): look up the target's geometry, unframe it by the frame
extents, pick the desktop containing the unframed box's min corner, subtract
the docks, plan the new box, reframe and offset it, and send it. -/
def placeStage (wg : WindowGroup) (fuel : Nat) (extents : SideOffsets2D)
    (hspec : HorizSpec) (vspec : VertSpec) (targetId : Nat) : RunOutcome :=
  match lookupMap wg.windows targetId with
  | none => .panicked
  | some geom =>
    let currentBox := (geom.toBox2d).outerBox extents
    match selectDesktopAux wg fuel (currentBox.minX, currentBox.minY)
        wg.desktop with
    | none => .panicked
    | some none => .aborted
    | some (some availBox) =>
      match dockFoldAux wg fuel wg.dock availBox with
      | none => .panicked
      | some avail2 =>
        let newBox := compute_new_box currentBox avail2 hspec vspec
        let framedBox := newBox.innerBox extents
        let offsetBox :=
          framedBox.translateB (wrap16 (-extents.left), wrap16 (-extents.top))
        .sent offsetBox.toRect

/-- One whole run (main.rs `main`) from a starting window id, with the frame
extents of the target taken as an input (the property fetch itself is a
server round trip outside the snapshot; a missing property is already
`SideOffsets2D::zero` by `window_frame_extents`). -/
def runMosaic (wg : WindowGroup) (fuel : Nat) (extents : SideOffsets2D)
    (start : Nat) (hspec : HorizSpec) (vspec : VertSpec) : RunOutcome :=
  match resolveTarget wg fuel start with
  | .found t => placeStage wg fuel extents hspec vspec t
  | .unresolvedT => .aborted
  | .panicked => .panicked

/-- The `_NET_WM_WINDOW_TYPE` property value fetched for a window, reduced to
the cases `window_group` distinguishes (main.rs:262-276). -/
inductive TypeProp where
  | unsetT
  | dockAtom
  | desktopAtom
  | otherAtom
deriving DecidableEq

/-- One window's worth of replies collected by `window_group`
(main.rs:227-231): the id, the parent id recorded by the tree walk, and
either the three successful replies (geometry, whether `WM_STATE` is present
with value `NormalState`, and the window type property) or `none` when any of
the three fetches failed (the window is then only logged and dropped). -/
structure FetchRec where
  id : Nat
  parentId : Nat
  fetched : Option (Rect × Bool × TypeProp)
deriving DecidableEq

/-- Ordered insert-or-replace into an ascending association list, the
`BTreeMap::insert` of the model. -/
def mapInsert {α : Type} : List (Nat × α) → Nat → α → List (Nat × α)
  | [], k, v => [(k, v)]
  | (k', v') :: rest, k, v =>
    if k < k' then (k, v) :: (k', v') :: rest
    else if k = k' then (k, v) :: rest
    else (k', v') :: mapInsert rest k v

/-- Ordered deduplicating insert into an ascending id list, the
`BTreeSet::insert` of the model. -/
def setInsert : List Nat → Nat → List Nat
  | [], k => [k]
  | k' :: rest, k =>
    if k < k' then k :: k' :: rest
    else if k = k' then k' :: rest
    else k' :: setInsert rest k

/-- Processing of one fetched window by `window_group` (main.rs:228-304): a
failed fetch only warns and adds nothing; a successful one records the parent
link and geometry, computes the window type (the root regardless of its
property), and classifies the id as selectable / dock / desktop when it is
the root or its `WM_STATE` is `NormalState`. -/
def buildStep (wg : WindowGroup) (r : FetchRec) : WindowGroup :=
  match r.fetched with
  | none => wg
  | some (g, stateNormal, tp) =>
    let wg1 := { wg with parents := mapInsert wg.parents r.id r.parentId }
    let isRoot := r.id = wg.rootId
    let wg2 :=
      if isRoot ∨ stateNormal then
        if isRoot then wg1
        else
          match tp with
          | .dockAtom => { wg1 with dock := setInsert wg1.dock r.id }
          | .desktopAtom => { wg1 with desktop := setInsert wg1.desktop r.id }
          | .unsetT => { wg1 with selectable := setInsert wg1.selectable r.id }
          | .otherAtom => { wg1 with selectable := setInsert wg1.selectable r.id }
      else wg1
    { wg2 with windows := mapInsert wg2.windows r.id g }

/-- Snapshot construction (`window_group`, main.rs:182-308) from the batch of
per-window fetch results: a fold of `buildStep` starting from the empty
snapshot. -/
def buildWindowGroup (rootId : Nat) (recs : List FetchRec) : WindowGroup :=
  recs.foldl buildStep ⟨[], rootId, [], [], [], []⟩

/-- A span `s` lies within the span from `a` to `b`. -/
def spanWithin (s : Int × Int) (a b : Int) : Prop :=
  a ≤ s.1 ∧ s.1 ≤ s.2 ∧ s.2 ≤ b

instance (s : Int × Int) (a b : Int) : Decidable (spanWithin s a b) := by
  unfold spanWithin; infer_instance

/-- The parent chain of `id` reaches the loop exit (the root or id 0) without
passing through a selectable window: this is the hypothesis "the
parent chain up to the root contains no selectable ancestor" of the resolver
claims, stated over the snapshot itself. -/
inductive ChainExits (wg : WindowGroup) : Nat → Prop
  | exit (id : Nat) : ¬(0 < id ∧ id ≠ wg.rootId) → ChainExits wg id
  | step (id p : Nat) : (0 < id ∧ id ≠ wg.rootId) →
      lookupMap wg.parents id = some p → p ∉ wg.selectable →
      ChainExits wg p → ChainExits wg id

/-! ## Helper lemmas -/

theorem wrap16_eq_self {n : Int} (h : validI16 n) : wrap16 n = n := by
  unfold wrap16 validI16 at *
  omega

theorem wrap16_wrap16_add (a c : Int) :
    wrap16 (wrap16 a + c) = wrap16 (a + c) := by
  unfold wrap16
  omega

theorem ifSingleton_congr {c d : Prop} [Decidable c] [Decidable d]
    {b1 b2 : Box2D} (hcd : c ↔ d) (hb : d → b1 = b2) :
    (if c then [b1] else []) = (if d then [b2] else []) := by
  by_cases h : d
  · rw [if_pos (hcd.mpr h), if_pos h, hb h]
  · rw [if_neg (fun hc => h (hcd.mp hc)), if_neg h]

theorem getLast?_ne_none {α : Type} : (l : List α) → l ≠ [] → l.getLast? ≠ none
  | [], h => absurd rfl h
  | [_], _ => by simp
  | a :: b :: t, _ => by
    rw [List.getLast?_cons_cons]
    exact getLast?_ne_none (b :: t) (by simp)

theorem walkUp_mono (wg : WindowGroup) :
    ∀ (n m id : Nat) (r : Option Nat), n ≤ m →
      walkUp wg n id = some r → walkUp wg m id = some r := by
  intro n
  induction n with
  | zero => intro m id r _ h; exact absurd h (by simp [walkUp])
  | succ k ih =>
    intro m id r hnm h
    obtain ⟨m', rfl⟩ : ∃ m', m = m' + 1 := ⟨m - 1, by omega⟩
    unfold walkUp at h ⊢
    by_cases hcond : 0 < id ∧ id ≠ wg.rootId
    · rw [if_pos hcond] at h ⊢
      match hl : lookupMap wg.parents id with
      | none => rw [hl] at h; exact absurd h (by simp)
      | some p =>
        simp only [hl] at h ⊢
        by_cases hsel : p ∈ wg.selectable
        · rwa [if_pos hsel] at h ⊢
        · rw [if_neg hsel] at h ⊢
          exact ih m' p r (by omega) h
    · rwa [if_neg hcond] at h ⊢

theorem chainExits_walkUp (wg : WindowGroup) (id : Nat)
    (h : ChainExits wg id) : ∃ n, walkUp wg n id = some none := by
  induction h with
  | exit id hcond => exact ⟨1, by unfold walkUp; rw [if_neg hcond]⟩
  | step id p hcond hlook hsel _ ih =>
    obtain ⟨n, hn⟩ := ih
    refine ⟨n + 1, ?_⟩
    unfold walkUp
    rw [if_pos hcond]
    simp only [hlook]
    rw [if_neg hsel]
    exact hn

theorem filterHead_selectable (sel : List Nat) (orig c : Nat) :
    ∀ l : List (Nat × Nat),
      ((l.filter (fun e => e.2 == orig)).head?).map (·.1) = some c →
      sel.contains c = true →
      ((l.filter (fun e => e.2 == orig && sel.contains e.1)).head?).map (·.1)
        = some c := by
  intro l
  induction l with
  | nil => intro h _; exact absurd h (by simp)
  | cons e t ih =>
    intro h hsel
    by_cases he : (e.2 == orig) = true
    · rw [List.filter_cons, if_pos he] at h
      simp only [List.head?_cons] at h
      have hc : e.1 = c := by simpa using h
      rw [List.filter_cons, if_pos (by rw [he, hc, hsel]; rfl)]
      simp [hc]
    · rw [List.filter_cons, if_neg (by simpa using he)] at h
      rw [List.filter_cons, if_neg (by simp_all)]
      exact ih h hsel

theorem noChild_firstSelectableChild (wg : WindowGroup) (orig : Nat)
    (h : ∀ e, e ∈ wg.parents → e.2 = orig → e.1 ∉ wg.selectable) :
    firstSelectableChild wg orig = none := by
  unfold firstSelectableChild
  have hfil : wg.parents.filter
      (fun e => e.2 == orig && wg.selectable.contains e.1) = [] := by
    rw [List.filter_eq_nil_iff]
    intro e he
    by_cases hp : e.2 = orig
    · have := h e he hp
      simp only [Bool.and_eq_true, beq_iff_eq]
      intro hcontra
      exact this (by simpa using hcontra.2)
    · simp [hp]
  rw [hfil]
  rfl

theorem selectDesktop_first (wg : WindowGroup) (fuel : Nat) (p : Int × Int)
    (f : Nat → Box2D) :
    ∀ l : List Nat, (∀ j, j ∈ l → windowAbsBox wg fuel j = some (f j)) →
      List.Pairwise (· < ·) l →
      ∀ i, i ∈ l → (f i).containsPt p →
      (∀ j, j ∈ l → (f j).containsPt p → i ≤ j) →
      selectDesktopAux wg fuel p l = some (some (f i)) := by
  intro l
  induction l with
  | nil => intro _ _ i hi; exact absurd hi (by simp)
  | cons x t ih =>
    intro habs hpair i hi hcont hmin
    unfold selectDesktopAux
    simp only [habs x (by simp)]
    by_cases hx : (f x).containsPt p
    · rw [if_pos hx]
      have hix : i = x := by
        rcases List.mem_cons.mp hi with h | h
        · exact h
        · have hxlt : x < i := (List.pairwise_cons.mp hpair).1 i h
          have hle : i ≤ x := hmin x (by simp) hx
          omega
      rw [hix]
    · rw [if_neg hx]
      have hit : i ∈ t := by
        rcases List.mem_cons.mp hi with h | h
        · exact absurd (h ▸ hcont) hx
        · exact h
      exact ih (fun j hj => habs j (by simp [hj]))
        (List.pairwise_cons.mp hpair).2 i hit hcont
        (fun j hj hc => hmin j (by simp [hj]) hc)

theorem selectDesktop_nomatch (wg : WindowGroup) (fuel : Nat) (p : Int × Int)
    (f : Nat → Box2D) :
    ∀ l : List Nat, (∀ j, j ∈ l → windowAbsBox wg fuel j = some (f j)) →
      (∀ j, j ∈ l → ¬ (f j).containsPt p) →
      selectDesktopAux wg fuel p l = some none := by
  intro l
  induction l with
  | nil => intro _ _; rfl
  | cons x t ih =>
    intro habs hnone
    unfold selectDesktopAux
    simp only [habs x (by simp)]
    rw [if_neg (hnone x (by simp))]
    exact ih (fun j hj => habs j (by simp [hj]))
      (fun j hj => hnone j (by simp [hj]))

theorem buildWindowGroup_filter_aux :
    ∀ (recs : List FetchRec) (init : WindowGroup),
      recs.foldl buildStep init
        = (recs.filter (fun r => r.fetched.isSome)).foldl buildStep init := by
  intro recs
  induction recs with
  | nil => intro init; rfl
  | cons r t ih =>
    intro init
    match hf : r.fetched with
    | none =>
      have hstep : buildStep init r = init := by unfold buildStep; rw [hf]
      rw [List.filter_cons_of_neg (by simp [hf])]
      simpa [hstep] using ih init
    | some v =>
      rw [List.filter_cons_of_pos (by simp [hf])]
      simpa using ih (buildStep init r)

/-! ## Claim theorems -/

/-- Claim C1: for the cycling specs `Left` and `Right`, `compute_new_horiz`
compares the current rectangle's horizontal span against the three
fixed-fraction candidates of that side and returns the 25% candidate when
the current span equals the 50% candidate, the 75% candidate when it equals
the 25% candidate, and the 50% candidate otherwise; hence, whenever the
three candidates are pairwise distinct, repeated application starting from
the `Left50` output cycles Left50 → Left25 → Left75 → Left50. -/
theorem claim1_cycling (cur avail : Box2D) :
    (((cur.minX, cur.maxX) = horizLeft50 avail →
        compute_new_horiz cur avail .Left = horizLeft25 avail)
      ∧ ((cur.minX, cur.maxX) ≠ horizLeft50 avail →
          (cur.minX, cur.maxX) = horizLeft25 avail →
          compute_new_horiz cur avail .Left = horizLeft75 avail)
      ∧ ((cur.minX, cur.maxX) ≠ horizLeft50 avail →
          (cur.minX, cur.maxX) ≠ horizLeft25 avail →
          compute_new_horiz cur avail .Left = horizLeft50 avail))
    ∧ (((cur.minX, cur.maxX) = horizRight50 avail →
        compute_new_horiz cur avail .Right = horizRight25 avail)
      ∧ ((cur.minX, cur.maxX) ≠ horizRight50 avail →
          (cur.minX, cur.maxX) = horizRight25 avail →
          compute_new_horiz cur avail .Right = horizRight75 avail)
      ∧ ((cur.minX, cur.maxX) ≠ horizRight50 avail →
          (cur.minX, cur.maxX) ≠ horizRight25 avail →
          compute_new_horiz cur avail .Right = horizRight50 avail))
    ∧ (horizLeft25 avail ≠ horizLeft50 avail →
       horizLeft25 avail ≠ horizLeft75 avail →
       horizLeft50 avail ≠ horizLeft75 avail →
         (∀ b1 : Box2D, (b1.minX, b1.maxX) = horizLeft50 avail →
            compute_new_horiz b1 avail .Left = horizLeft25 avail)
       ∧ (∀ b2 : Box2D, (b2.minX, b2.maxX) = horizLeft25 avail →
            compute_new_horiz b2 avail .Left = horizLeft75 avail)
       ∧ (∀ b3 : Box2D, (b3.minX, b3.maxX) = horizLeft75 avail →
            compute_new_horiz b3 avail .Left = horizLeft50 avail)) := by
  refine ⟨⟨?_, ?_, ?_⟩, ⟨?_, ?_, ?_⟩, ?_⟩
  · intro h
    simp only [compute_new_horiz]
    rw [if_pos h]
  · intro h h2
    simp only [compute_new_horiz]
    rw [if_neg h, if_pos h2]
  · intro h h2
    simp only [compute_new_horiz]
    rw [if_neg h, if_neg h2]
  · intro h
    simp only [compute_new_horiz]
    rw [if_pos h]
  · intro h h2
    simp only [compute_new_horiz]
    rw [if_neg h, if_pos h2]
  · intro h h2
    simp only [compute_new_horiz]
    rw [if_neg h, if_neg h2]
  · intro d1 d2 d3
    refine ⟨?_, ?_, ?_⟩
    · intro b1 hb
      simp only [compute_new_horiz]
      rw [if_pos hb]
    · intro b2 hb
      simp only [compute_new_horiz]
      rw [if_neg (fun hc => d1 (hb.symm.trans hc)), if_pos hb]
    · intro b3 hb
      simp only [compute_new_horiz]
      rw [if_neg (fun hc => d3 (hb.symm.trans hc).symm),
        if_neg (fun hc => d2 (hb.symm.trans hc).symm)]

/-- Witness for C1: on the available box `[(0,0)-(100,100)]` the three left
candidates `(0,25)`, `(0,50)`, `(0,75)` are pairwise distinct, and the three
cycle steps hold. -/
theorem claim1_witness :
    compute_new_horiz ⟨0, 0, 50, 100⟩ ⟨0, 0, 100, 100⟩ .Left
        = horizLeft25 ⟨0, 0, 100, 100⟩
    ∧ compute_new_horiz ⟨0, 0, 25, 100⟩ ⟨0, 0, 100, 100⟩ .Left
        = horizLeft75 ⟨0, 0, 100, 100⟩
    ∧ compute_new_horiz ⟨0, 0, 75, 100⟩ ⟨0, 0, 100, 100⟩ .Left
        = horizLeft50 ⟨0, 0, 100, 100⟩ := by
  have h := (claim1_cycling ⟨0, 0, 0, 0⟩ ⟨0, 0, 100, 100⟩).2.2
    (by decide) (by decide) (by decide)
  exact ⟨h.1 ⟨0, 0, 50, 100⟩ (by decide), h.2.1 ⟨0, 0, 25, 100⟩ (by decide),
    h.2.2 ⟨0, 0, 75, 100⟩ (by decide)⟩

/-- Claim C2: in the partial-intersection branch of the dock-subtraction
fold, the step generates one candidate per side on which the dock does not
reach the available rectangle's edge, in the fixed order left-of-dock,
right-of-dock, above-dock, below-dock, and returns the last candidate
generated; in particular, for available `[(0,0)-(1920,1080)]` and dock
`[(0,0)-(1920,20)]` the result is `[(0,20)-(1920,1080)]`. -/
theorem claim2_dock_step :
    (∀ avail dock overlap : Box2D,
      Box2D.intersection avail dock = some overlap → overlap ≠ avail →
      dockStep avail dock = (specDockCandidates avail dock).getLast?)
    ∧ dockStep ⟨0, 0, 1920, 1080⟩ ⟨0, 0, 1920, 20⟩
        = some ⟨0, 20, 1920, 1080⟩ := by
  constructor
  · intro avail dock overlap hInter hNe
    have hov : overlap = ⟨max avail.minX dock.minX, max avail.minY dock.minY,
        min avail.maxX dock.maxX, min avail.maxY dock.maxY⟩ := by
      simp only [Box2D.intersection] at hInter
      split at hInter
      · exact absurd hInter (by simp)
      · injection hInter with h
        exact h.symm
    unfold dockStep
    simp only [hInter]
    rw [if_neg hNe]
    subst hov
    congr 1
    obtain ⟨a1, a2, a3, a4⟩ := avail
    obtain ⟨d1, d2, d3, d4⟩ := dock
    unfold dockRegions specDockCandidates
    refine congrArg₂ (· ++ ·) (congrArg₂ (· ++ ·)
      (congrArg₂ (· ++ ·) ?_ ?_) ?_) ?_
    · exact ifSingleton_congr (by dsimp only; omega)
        (fun h => by
          dsimp only at h ⊢
          simp only [Box2D.mk.injEq, eq_self_iff_true, true_and, and_true]
          omega)
    · exact ifSingleton_congr (by dsimp only; omega)
        (fun h => by
          dsimp only at h ⊢
          simp only [Box2D.mk.injEq, eq_self_iff_true, true_and, and_true]
          omega)
    · exact ifSingleton_congr (by dsimp only; omega)
        (fun h => by
          dsimp only at h ⊢
          simp only [Box2D.mk.injEq, eq_self_iff_true, true_and, and_true]
          omega)
    · exact ifSingleton_congr (by dsimp only; omega)
        (fun h => by
          dsimp only at h ⊢
          simp only [Box2D.mk.injEq, eq_self_iff_true, true_and, and_true]
          omega)
  · decide

/-- Witness for C2: a dock occupying the left third of the available box; the
step's result is the last (and only) generated candidate, right-of-dock. -/
theorem claim2_witness :
    dockStep ⟨0, 0, 100, 100⟩ ⟨0, 0, 30, 100⟩
      = (specDockCandidates ⟨0, 0, 100, 100⟩ ⟨0, 0, 30, 100⟩).getLast? :=
  claim2_dock_step.1 ⟨0, 0, 100, 100⟩ ⟨0, 0, 30, 100⟩ ⟨0, 0, 30, 100⟩
    (by decide) (by decide)

/-- Claim C3: shrinking the expansion of a box by the same frame extents
yields the box back exactly: `inner_box (outer_box b e) e = b` for every box
with `i16`-representable corners and non-negative insets. -/
theorem claim3_frame_round_trip (b : Box2D) (e : SideOffsets2D)
    (hb : validI16 b.minX ∧ validI16 b.minY ∧ validI16 b.maxX ∧ validI16 b.maxY)
    (he : 0 ≤ e.left ∧ 0 ≤ e.top ∧ 0 ≤ e.right ∧ 0 ≤ e.bottom) :
    (b.outerBox e).innerBox e = b := by
  obtain ⟨m1, m2, m3, m4⟩ := b
  obtain ⟨h1, h2, h3, h4⟩ := hb
  dsimp only at h1 h2 h3 h4
  simp only [Box2D.outerBox, Box2D.innerBox, Box2D.mk.injEq]
  unfold wrap16 validI16 at *
  refine ⟨by omega, by omega, by omega, by omega⟩

/-- Witness for C3: a concrete box and concrete positive extents. -/
theorem claim3_witness :
    (Box2D.outerBox ⟨10, 20, 110, 220⟩ ⟨24, 2, 3, 4⟩).innerBox ⟨24, 2, 3, 4⟩
      = ⟨10, 20, 110, 220⟩ :=
  claim3_frame_round_trip ⟨10, 20, 110, 220⟩ ⟨24, 2, 3, 4⟩
    (by decide) (by decide)

/-- Counterexample for C4: on available `[(0,20)-(1920,1080)]`, current
`[(100,100)-(900,700)]` and spec `(Left50, Top)` the planner does not return
the rectangle `[(0,20)-(960,560)]` stated by the claim. -/
theorem claim4_counterexample :
    compute_new_box ⟨100, 100, 900, 700⟩ ⟨0, 20, 1920, 1080⟩ .Left50 .Top
      ≠ ⟨0, 20, 960, 560⟩ := by decide

/-- Claim C4 (amended): the planner returns `[(0,20)-(960,550)]` — half the
available width from the left edge and half the available height
`(1080 - 20) / 2 = 530` from the top edge `20`. -/
theorem claim4_scenario :
    compute_new_box ⟨100, 100, 900, 700⟩ ⟨0, 20, 1920, 1080⟩ .Left50 .Top
      = ⟨0, 20, 960, 550⟩ := by decide

/-- Claim C7 (amended): for an available rectangle with `i16`-representable
ordered horizontal corners whose width is small enough that no intermediate
`i16` computation overflows (`3 * width ≤ 32767`), every non-cycling,
non-`Current` horizontal spec produces a span contained in the available
horizontal span. -/
theorem claim7_horiz_span_contained (cur avail : Box2D) (hspec : HorizSpec)
    (hmem : hspec ∈ [HorizSpec.Left25, .Left50, .Left75, .Right25, .Right50,
      .Right75, .Full])
    (hlo : validI16 avail.minX) (hhi : validI16 avail.maxX)
    (hord : avail.minX ≤ avail.maxX)
    (hnof : 3 * (avail.maxX - avail.minX) ≤ 32767) :
    spanWithin (compute_new_horiz cur avail hspec) avail.minX avail.maxX := by
  obtain ⟨a1, a2, a3, a4⟩ := avail
  unfold validI16 at hlo hhi
  dsimp only at hlo hhi hord hnof
  have hwv : wrap16 (a3 - a1) = a3 - a1 :=
    wrap16_eq_self (by unfold validI16; omega)
  fin_cases hmem
  · simp only [compute_new_horiz, horizLeft25, Box2D.width, spanWithin]
    rw [hwv, wrap16_eq_self
      (show validI16 (a1 + (a3 - a1) / 4) by unfold validI16; omega)]
    omega
  · simp only [compute_new_horiz, horizLeft50, Box2D.width, spanWithin]
    rw [hwv, wrap16_eq_self
      (show validI16 (a1 + (a3 - a1) / 2) by unfold validI16; omega)]
    omega
  · simp only [compute_new_horiz, horizLeft75, Box2D.width, spanWithin]
    rw [hwv, wrap16_eq_self
      (show validI16 ((a3 - a1) * 3) by unfold validI16; omega),
      wrap16_eq_self
      (show validI16 (a1 + (a3 - a1) * 3 / 4) by unfold validI16; omega)]
    omega
  · simp only [compute_new_horiz, horizRight25, Box2D.width, spanWithin]
    rw [hwv, wrap16_eq_self
      (show validI16 (a3 - (a3 - a1) / 4) by unfold validI16; omega)]
    omega
  · simp only [compute_new_horiz, horizRight50, Box2D.width, spanWithin]
    rw [hwv, wrap16_eq_self
      (show validI16 (a3 - (a3 - a1) / 2) by unfold validI16; omega)]
    omega
  · simp only [compute_new_horiz, horizRight75, Box2D.width, spanWithin]
    rw [hwv, wrap16_eq_self
      (show validI16 ((a3 - a1) * 3) by unfold validI16; omega),
      wrap16_eq_self
      (show validI16 (a3 - (a3 - a1) * 3 / 4) by unfold validI16; omega)]
    omega
  · simp only [compute_new_horiz, spanWithin]
    omega

/-- Witness for C7 (amended): `Left75` on `[(0,20)-(1920,1080)]` stays within
the available horizontal span `[0, 1920]`. -/
theorem claim7_witness :
    spanWithin (compute_new_horiz ⟨0, 0, 0, 0⟩ ⟨0, 20, 1920, 1080⟩ .Left75)
      0 1920 :=
  claim7_horiz_span_contained ⟨0, 0, 0, 0⟩ ⟨0, 20, 1920, 1080⟩ .Left75
    (by decide) (by decide) (by decide) (by decide) (by decide)

/-- Counterexample for C7: over the full 16-bit signed coordinate space the
claim fails: on the available rectangle with horizontal span
`[-32768, 7232]` (width 40000, which wraps as an `i16`), `Left50` produces
the span `(-32768, 20000)`, a non-empty span that sticks out past the
available right edge `7232`. -/
theorem claim7_counterexample :
    compute_new_horiz ⟨0, 0, 0, 0⟩ ⟨-32768, 0, 7232, 100⟩ .Left50
      = (-32768, 20000)
    ∧ ¬ spanWithin
        (compute_new_horiz ⟨0, 0, 0, 0⟩ ⟨-32768, 0, 7232, 100⟩ .Left50)
        (-32768) 7232
    ∧ ((-32768 : Int) ≤ 20000 ∧ ¬ ((20000 : Int) ≤ 7232)) := by decide

/-- Claim C10: whenever the dock's intersection with the available rectangle
is non-empty and differs from the whole available rectangle, at least one of
the four side conditions holds, so the candidate list is non-empty and the
`regions.pop().unwrap()` of the fold step cannot fail. -/
theorem claim10_pop_never_fails (avail dock overlap : Box2D)
    (hInter : Box2D.intersection avail dock = some overlap)
    (hNe : overlap ≠ avail) :
    dockRegions avail overlap ≠ [] ∧ dockStep avail dock ≠ none := by
  have hov : overlap = ⟨max avail.minX dock.minX, max avail.minY dock.minY,
      min avail.maxX dock.maxX, min avail.maxY dock.maxY⟩ := by
    simp only [Box2D.intersection] at hInter
    split at hInter
    · exact absurd hInter (by simp)
    · injection hInter with h
      exact h.symm
  have hcase : avail.minX < overlap.minX ∨ avail.maxX > overlap.maxX
      ∨ avail.minY < overlap.minY ∨ avail.maxY > overlap.maxY := by
    by_contra hno
    push_neg at hno
    apply hNe
    obtain ⟨a1, a2, a3, a4⟩ := avail
    obtain ⟨d1, d2, d3, d4⟩ := dock
    rw [hov] at hno ⊢
    simp only [Box2D.mk.injEq]
    dsimp only at hno
    refine ⟨?_, ?_, ?_, ?_⟩ <;> omega
  have hne_nil : dockRegions avail overlap ≠ [] := by
    unfold dockRegions
    rcases hcase with h | h | h | h <;>
      · intro hc
        rw [if_pos h] at hc
        simp [List.append_eq_nil] at hc
  refine ⟨hne_nil, ?_⟩
  unfold dockStep
  simp only [hInter]
  rw [if_neg hNe]
  exact getLast?_ne_none _ hne_nil

/-- Witness for C10: a dock covering the right part of the available box;
the candidate list is non-empty and the step returns a box. -/
theorem claim10_witness :
    dockRegions ⟨0, 0, 80, 60⟩ ⟨50, 0, 80, 60⟩ ≠ []
    ∧ dockStep ⟨0, 0, 80, 60⟩ ⟨50, 0, 80, 60⟩ ≠ none :=
  claim10_pop_never_fails ⟨0, 0, 80, 60⟩ ⟨50, 0, 80, 60⟩ ⟨50, 0, 80, 60⟩
    (by decide) (by decide)

/-- Claim C5: for every snapshot and starting id that is not selectable,
whose parent chain up to the root contains no selectable ancestor, and whose
first immediate child is selectable, target resolution returns that first
child's id (with enough fuel for the bounded parent walk). -/
theorem claim5_resolver_first_child (wg : WindowGroup) (start c : Nat)
    (hns : start ∉ wg.selectable)
    (hchain : ChainExits wg start)
    (hfc : firstChild wg start = some c)
    (hcs : wg.selectable.contains c = true) :
    ∃ n, ∀ fuel, n ≤ fuel → resolveTarget wg fuel start = .found c := by
  obtain ⟨n, hn⟩ := chainExits_walkUp wg start hchain
  refine ⟨n, fun fuel hf => ?_⟩
  have hw : walkUp wg fuel start = some none :=
    walkUp_mono wg n fuel start none hf hn
  unfold resolveTarget
  rw [if_neg hns]
  simp only [hw]
  have hfsc : firstSelectableChild wg start = some c := by
    unfold firstSelectableChild
    unfold firstChild at hfc
    exact filterHead_selectable wg.selectable start c wg.parents hfc hcs
  simp only [hfsc]

/-- The snapshot used to witness C5: window 5 is not selectable, its parent
chain `5 → 1` reaches the root 1 without a selectable ancestor, and its first
child 7 is selectable. -/
def wgC5 : WindowGroup :=
  ⟨[], 1, [], [], [7], [(1, 1), (5, 1), (7, 5)]⟩

/-- Witness for C5 at the concrete snapshot `wgC5`. -/
theorem claim5_witness :
    ∃ n, ∀ fuel, n ≤ fuel → resolveTarget wgC5 fuel 5 = .found 7 :=
  claim5_resolver_first_child wgC5 5 7 (by decide)
    (ChainExits.step 5 1 (by decide) (by decide) (by decide)
      (ChainExits.exit 1 (by decide)))
    (by decide) (by decide)

/-- Claim C6: desktop selection scans the desktop id set in ascending order
and returns the first desktop whose absolute rectangle contains the top-left
corner of the target's unframed box, with no scoring of overlap size; when
no desktop matches, the run aborts with no geometry computed or sent. -/
theorem claim6_desktop_selection :
    (∀ (wg : WindowGroup) (fuel : Nat) (p : Int × Int) (f : Nat → Box2D)
        (i : Nat),
      (∀ j, j ∈ wg.desktop → windowAbsBox wg fuel j = some (f j)) →
      List.Pairwise (· < ·) wg.desktop →
      i ∈ wg.desktop → (f i).containsPt p →
      (∀ j, j ∈ wg.desktop → (f j).containsPt p → i ≤ j) →
      selectDesktopAux wg fuel p wg.desktop = some (some (f i)))
    ∧ (∀ (wg : WindowGroup) (fuel : Nat) (extents : SideOffsets2D)
        (hspec : HorizSpec) (vspec : VertSpec) (t : Nat) (g : Rect)
        (f : Nat → Box2D),
      lookupMap wg.windows t = some g →
      (∀ j, j ∈ wg.desktop → windowAbsBox wg fuel j = some (f j)) →
      (∀ j, j ∈ wg.desktop →
        ¬ (f j).containsPt (((g.toBox2d).outerBox extents).minX,
          ((g.toBox2d).outerBox extents).minY)) →
      placeStage wg fuel extents hspec vspec t = .aborted
      ∧ commandSent (placeStage wg fuel extents hspec vspec t) = none) := by
  constructor
  · intro wg fuel p f i habs hpair hi hcont hmin
    exact selectDesktop_first wg fuel p f wg.desktop habs hpair i hi hcont hmin
  · intro wg fuel extents hspec vspec t g f hlook habs hnone
    have hsel : selectDesktopAux wg fuel
        (((g.toBox2d).outerBox extents).minX,
          ((g.toBox2d).outerBox extents).minY) wg.desktop = some none :=
      selectDesktop_nomatch wg fuel _ f wg.desktop habs hnone
    have hst : placeStage wg fuel extents hspec vspec t = .aborted := by
      unfold placeStage
      simp only [hlook, hsel]
    exact ⟨hst, by rw [hst]; rfl⟩

/-- The snapshot used to witness C6: two desktops 2 and 3 (in ascending
order), both with resolvable absolute boxes; the point `(150, 50)` lies only
on desktop 3. -/
def wgC6 : WindowGroup :=
  ⟨[(1, ⟨0, 0, 200, 200⟩), (2, ⟨0, 0, 100, 100⟩), (3, ⟨100, 0, 100, 100⟩)],
   1, [2, 3], [], [], [(1, 1), (2, 1), (3, 1)]⟩

/-- Witness for C6 at the concrete snapshot `wgC6`: the first (and here
only) desktop containing the point is returned. -/
theorem claim6_witness :
    selectDesktopAux wgC6 3 (150, 50) wgC6.desktop
      = some (some ⟨100, 0, 200, 100⟩) :=
  claim6_desktop_selection.1 wgC6 3 (150, 50)
    (fun j => if j = 2 then ⟨0, 0, 100, 100⟩ else ⟨100, 0, 200, 100⟩) 3
    (by decide) (by decide) (by decide) (by decide) (by decide)

/-- Claim C8 (amended): when the target cannot be resolved to a selectable
window, or no desktop matches the target's unframed rectangle, the run
aborts (after logging a diagnostic) and no geometry command is sent; however
`main` returns `Ok(())` on these paths, so the process exits with status 0,
not non-zero. -/
theorem claim8_abort_paths :
    (∀ (wg : WindowGroup) (extents : SideOffsets2D) (hspec : HorizSpec)
        (vspec : VertSpec) (start : Nat),
      start ∉ wg.selectable → ChainExits wg start →
      (∀ e, e ∈ wg.parents → e.2 = start → e.1 ∉ wg.selectable) →
      ∃ n, ∀ fuel, n ≤ fuel →
        runMosaic wg fuel extents start hspec vspec = .aborted
        ∧ commandSent (runMosaic wg fuel extents start hspec vspec) = none
        ∧ exitCode (runMosaic wg fuel extents start hspec vspec) = 0)
    ∧ (∀ (wg : WindowGroup) (fuel : Nat) (extents : SideOffsets2D)
        (hspec : HorizSpec) (vspec : VertSpec) (start t : Nat) (g : Rect)
        (f : Nat → Box2D),
      resolveTarget wg fuel start = .found t →
      lookupMap wg.windows t = some g →
      (∀ j, j ∈ wg.desktop → windowAbsBox wg fuel j = some (f j)) →
      (∀ j, j ∈ wg.desktop →
        ¬ (f j).containsPt (((g.toBox2d).outerBox extents).minX,
          ((g.toBox2d).outerBox extents).minY)) →
      runMosaic wg fuel extents start hspec vspec = .aborted
      ∧ commandSent (runMosaic wg fuel extents start hspec vspec) = none
      ∧ exitCode (runMosaic wg fuel extents start hspec vspec) = 0) := by
  constructor
  · intro wg extents hspec vspec start hns hchain hnochild
    obtain ⟨n, hn⟩ := chainExits_walkUp wg start hchain
    refine ⟨n, fun fuel hf => ?_⟩
    have hw : walkUp wg fuel start = some none :=
      walkUp_mono wg n fuel start none hf hn
    have hres : resolveTarget wg fuel start = .unresolvedT := by
      unfold resolveTarget
      rw [if_neg hns]
      simp only [hw]
      rw [noChild_firstSelectableChild wg start hnochild]
    have hrun : runMosaic wg fuel extents start hspec vspec = .aborted := by
      unfold runMosaic
      simp only [hres]
    exact ⟨hrun, by rw [hrun]; rfl, by rw [hrun]; rfl⟩
  · intro wg fuel extents hspec vspec start t g f hres hlook habs hnone
    have hsel : selectDesktopAux wg fuel
        (((g.toBox2d).outerBox extents).minX,
          ((g.toBox2d).outerBox extents).minY) wg.desktop = some none :=
      selectDesktop_nomatch wg fuel _ f wg.desktop habs hnone
    have hrun : runMosaic wg fuel extents start hspec vspec = .aborted := by
      unfold runMosaic
      simp only [hres]
      unfold placeStage
      simp only [hlook, hsel]
    exact ⟨hrun, by rw [hrun]; rfl, by rw [hrun]; rfl⟩

/-- The snapshot used for C8: window 5 exists but nothing is selectable, so
the target cannot be resolved. -/
def wgC8 : WindowGroup :=
  ⟨[(1, ⟨0, 0, 200, 200⟩), (5, ⟨0, 0, 10, 10⟩)], 1, [], [], [],
   [(1, 1), (5, 1)]⟩

/-- Witness for C8 (amended) at the concrete snapshot `wgC8`. -/
theorem claim8_witness :
    ∃ n, ∀ fuel, n ≤ fuel →
      runMosaic wgC8 fuel ⟨0, 0, 0, 0⟩ 5 .Left50 .Top = .aborted
      ∧ commandSent (runMosaic wgC8 fuel ⟨0, 0, 0, 0⟩ 5 .Left50 .Top) = none
      ∧ exitCode (runMosaic wgC8 fuel ⟨0, 0, 0, 0⟩ 5 .Left50 .Top) = 0 :=
  claim8_abort_paths.1 wgC8 ⟨0, 0, 0, 0⟩ .Left50 .Top 5 (by decide)
    (ChainExits.step 5 1 (by decide) (by decide) (by decide)
      (ChainExits.exit 1 (by decide)))
    (by decide)

/-- Counterexample for C8: on `wgC8` the target id 5 cannot be resolved, the
run aborts without sending a command, yet the process exit status is 0 —
contradicting the claim that it exits with a non-zero status. -/
theorem claim8_counterexample :
    runMosaic wgC8 5 ⟨0, 0, 0, 0⟩ 5 .Left50 .Top = .aborted
    ∧ commandSent (runMosaic wgC8 5 ⟨0, 0, 0, 0⟩ 5 .Left50 .Top) = none
    ∧ exitCode (runMosaic wgC8 5 ⟨0, 0, 0, 0⟩ 5 .Left50 .Top) = 0 := by
  decide

/-- Claim C9 (amended): a per-window fetch failure is never fatal to
snapshot construction — the snapshot built is exactly the one built from the
successfully fetched windows; however, the parent-chain walk panics (and the
run aborts) when it looks up an id that is absent from the parents map, such
as a dropped starting window. -/
theorem claim9_construction_absorbs :
    (∀ (rootId : Nat) (recs : List FetchRec),
      buildWindowGroup rootId recs
        = buildWindowGroup rootId (recs.filter (fun r => r.fetched.isSome)))
    ∧ (∀ (wg : WindowGroup) (fuel start : Nat),
      start ∉ wg.selectable → 0 < start → start ≠ wg.rootId →
      lookupMap wg.parents start = none →
      resolveTarget wg (fuel + 1) start = .panicked) := by
  constructor
  · intro rootId recs
    exact buildWindowGroup_filter_aux recs ⟨[], rootId, [], [], [], []⟩
  · intro wg fuel start hns hpos hroot hlook
    have hw : walkUp wg (fuel + 1) start = none := by
      unfold walkUp
      rw [if_pos ⟨hpos, hroot⟩]
      simp only [hlook]
    unfold resolveTarget
    rw [if_neg hns]
    simp only [hw]

/-- The snapshot used for C9: built from two fetch records, the root (id 1,
all fetches succeeded) and window 5 whose property fetch failed, so 5 is
dropped from every map of the snapshot. -/
def wgC9 : WindowGroup :=
  buildWindowGroup 1
    [⟨1, 1, some (⟨0, 0, 200, 200⟩, false, .otherAtom)⟩, ⟨5, 1, none⟩]

/-- Witness for C9 (amended), applying both halves at concrete inputs: the
construction equality at the two records of `wgC9`, and the panic of the
resolver on the dropped id. -/
theorem claim9_witness :
    buildWindowGroup 1
        [⟨1, 1, some (⟨0, 0, 200, 200⟩, false, .otherAtom)⟩, ⟨5, 1, none⟩]
      = buildWindowGroup 1
          ([⟨1, 1, some (⟨0, 0, 200, 200⟩, false, .otherAtom)⟩, ⟨5, 1, none⟩].filter
            (fun r => r.fetched.isSome))
    ∧ resolveTarget wgC9 3 5 = .panicked :=
  ⟨claim9_construction_absorbs.1 1
      [⟨1, 1, some (⟨0, 0, 200, 200⟩, false, .otherAtom)⟩, ⟨5, 1, none⟩],
   claim9_construction_absorbs.2 wgC9 2 5 (by decide) (by decide) (by decide)
     (by decide)⟩

/-- Counterexample for C9: in the snapshot `wgC9`, window 5 was dropped
because a property fetch failed; it is absent from the windows map, and a
run targeting it panics in the parent-chain walk (`wg.parents[&id]`),
aborting the process with a non-zero status — target resolution does not
complete without aborting. -/
theorem claim9_counterexample :
    lookupMap wgC9.windows 5 = none
    ∧ resolveTarget wgC9 10 5 = .panicked
    ∧ runMosaic wgC9 10 ⟨0, 0, 0, 0⟩ 5 .Left50 .Top = .panicked
    ∧ exitCode (runMosaic wgC9 10 ⟨0, 0, 0, 0⟩ 5 .Left50 .Top) = 101 := by
  decide

end Mosaic
